import Mathlib

/-!
Verification development for the screen-region capture pipeline of the
fratgpt2 browser extension.

The development shallowly embeds the three parts of the pipeline that the
specification's claims concern:

* the content-script selection overlay (`src/content.ts`): module-level
  mutable state (`isSnipping`, `overlay`, `selectionBox`, `startX`,
  `startY`) is modelled as an explicit `ContentState` record, and the
  event handlers (`startSnipMode`, `cancelSnipMode`, `handleMouseDown`,
  `handleMouseMove`, `handleMouseUp`, `handleKeyDown`, contextmenu) as a
  step function `contentStep` over that record, which also collects the
  `SNIP_COMPLETE` messages sent via `chrome.runtime.sendMessage`;

* the background crop stage (`cropImage` in `background.ts` /
  `cropImageWithOffscreenCanvas` in the service-worker draft): modelled
  as a pure function on a decoded pixel grid, reproducing the
  `drawImage(img, x, y, w, h, 0, 0, w, h)` call on an `OffscreenCanvas`
  of size `w × h` — the source rectangle is clipped to the source
  bitmap and un-drawn canvas pixels stay transparent black;

* the size-budgeted encoder (`compressBase64Image` in
  `utils/imageCompression.ts`): the external `browser-image-compression`
  call (together with the base64/File/Blob conversions inside the `try`
  block) is abstracted as an oracle `String → CompressionSettings →
  Option String`, `none` standing for any thrown error, and the
  surrounding size-estimation / skip / fallback logic is embedded
  directly.

JavaScript numbers are modelled as `ℚ` where fractional values can occur
(mouse coordinates, devicePixelRatio) and as `ℕ`/`ℤ` where the source
only produces integers (`Math.round` results, pixel indices).
`Math.round x` is `⌊x + 1/2⌋` (ties toward +∞), as in JS.
-/

/-! ## Selection overlay (content script) -/

/-- The coordinate payload of a `SNIP_COMPLETE` message, as built in
`handleMouseUp` of `content.ts`. -/
structure SnipCoords where
  x : ℚ
  y : ℚ
  width : ℚ
  height : ℚ
  deriving DecidableEq, Repr

/-- A message sent from the content script with `chrome.runtime.sendMessage`. -/
inductive SnipMessage where
  | snipComplete (coords : SnipCoords)
  deriving DecidableEq, Repr

/-- The module-level mutable state of `content.ts`:
`isSnipping`, the `overlay` and `selectionBox` element references
(`Bool`: reference non-null), the number of overlay / selection-box
elements currently appended to `document.body`, the selection box's
`display` style and inline geometry, the drag start coordinates, and
whether the document-level keydown listener is attached. -/
structure ContentState where
  isSnipping : Bool
  overlayRef : Bool
  overlayElems : ℕ
  boxRef : Bool
  boxElems : ℕ
  boxVisible : Bool
  boxLeft : ℚ
  boxTop : ℚ
  boxWidth : ℚ
  boxHeight : ℚ
  startX : ℚ
  startY : ℚ
  keydownListener : Bool
  deriving DecidableEq, Repr

/-- The state at script load: all element references null, `isSnipping`
false, `startX = startY = 0`. -/
def initialContentState : ContentState :=
  { isSnipping := false
    overlayRef := false
    overlayElems := 0
    boxRef := false
    boxElems := 0
    boxVisible := false
    boxLeft := 0
    boxTop := 0
    boxWidth := 0
    boxHeight := 0
    startX := 0
    startY := 0
    keydownListener := false }

/-- Events the content script can observe: the two runtime messages from
the sidepanel and the DOM events its handlers are registered for. -/
inductive ContentEvent where
  | startSnip
  | cancelSnip
  | mouseDown (x y : ℚ)
  | mouseMove (x y : ℚ)
  | mouseUp (x y : ℚ)
  | keyDown (key : String)
  | contextMenu
  deriving DecidableEq, Repr

/-- `startSnipMode` of `content.ts`: early-returns when `isSnipping`;
otherwise creates and appends the overlay and the (hidden) selection box
and attaches the listeners.  The created box has `display: none` and no
inline geometry yet. -/
def startSnipMode (s : ContentState) : ContentState :=
  if s.isSnipping then s
  else
    { s with
      isSnipping := true
      overlayRef := true
      overlayElems := s.overlayElems + 1
      boxRef := true
      boxElems := s.boxElems + 1
      boxVisible := false
      boxLeft := 0
      boxTop := 0
      boxWidth := 0
      boxHeight := 0
      keydownListener := true }

/-- `cancelSnipMode` of `content.ts`: early-returns when not snipping;
otherwise removes the overlay and selection-box elements, nulls the
references and detaches the keydown listener.  `startX`/`startY` are NOT
reset. -/
def cancelSnipMode (s : ContentState) : ContentState :=
  if s.isSnipping then
    { s with
      isSnipping := false
      overlayRef := false
      overlayElems := if s.overlayRef then s.overlayElems - 1 else s.overlayElems
      boxRef := false
      boxElems := if s.boxRef then s.boxElems - 1 else s.boxElems
      keydownListener := false }
  else s

/-- `handleMouseDown`: records the drag start and shows the selection box
at zero size. -/
def handleMouseDown (x y : ℚ) (s : ContentState) : ContentState :=
  let s1 := { s with startX := x, startY := y }
  if s1.boxRef then
    { s1 with boxVisible := true, boxLeft := x, boxTop := y, boxWidth := 0, boxHeight := 0 }
  else s1

/-- `handleMouseMove`: updates the selection box geometry while visible. -/
def handleMouseMove (x y : ℚ) (s : ContentState) : ContentState :=
  if s.boxRef = false ∨ s.boxVisible = false then s
  else
    { s with
      boxLeft := min x s.startX
      boxTop := min y s.startY
      boxWidth := |x - s.startX|
      boxHeight := |y - s.startY| }

/-- `handleMouseUp`: guards only on the `selectionBox` reference; computes
the rectangle from the module-level `startX`/`startY`; cancels on a
selection smaller than 10 CSS px in either dimension, and otherwise sends
`SNIP_COMPLETE` with every component multiplied by
`window.devicePixelRatio` (read here, at selection time) before tearing
down. -/
def handleMouseUp (dpr x y : ℚ) (s : ContentState) : ContentState × List SnipMessage :=
  if s.boxRef = false then (s, [])
  else
    let width := |x - s.startX|
    let height := |y - s.startY|
    if width < 10 ∨ height < 10 then (cancelSnipMode s, [])
    else
      let left := min x s.startX
      let top := min y s.startY
      (cancelSnipMode s,
        [SnipMessage.snipComplete
          { x := left * dpr, y := top * dpr, width := width * dpr, height := height * dpr }])

/-- One observable event processed by the content script.  Handlers
attached to the overlay element (`mousedown`, `mousemove`, `mouseup`,
`contextmenu`) fire only while that element exists; the keydown handler
only while attached to the document; the runtime message listener is
always installed. -/
def contentStep (dpr : ℚ) (s : ContentState) : ContentEvent → ContentState × List SnipMessage
  | ContentEvent.startSnip => (startSnipMode s, [])
  | ContentEvent.cancelSnip => (cancelSnipMode s, [])
  | ContentEvent.mouseDown x y =>
      if s.overlayRef then (handleMouseDown x y s, []) else (s, [])
  | ContentEvent.mouseMove x y =>
      if s.overlayRef then (handleMouseMove x y s, []) else (s, [])
  | ContentEvent.mouseUp x y =>
      if s.overlayRef then handleMouseUp dpr x y s else (s, [])
  | ContentEvent.keyDown key =>
      if s.keydownListener ∧ key = "Escape" then (cancelSnipMode s, []) else (s, [])
  | ContentEvent.contextMenu =>
      if s.overlayRef then (cancelSnipMode s, []) else (s, [])

/-- Process a list of events, accumulating the sent messages in order. -/
def contentRun (dpr : ℚ) : ContentState → List ContentEvent → ContentState × List SnipMessage
  | s, [] => (s, [])
  | s, e :: es =>
      let step := contentStep dpr s e
      let rest := contentRun dpr step.1 es
      (rest.1, step.2 ++ rest.2)

/-! ## Crop stage (background service worker) -/

/-- One RGBA pixel. -/
structure Pixel where
  r : ℕ
  g : ℕ
  b : ℕ
  a : ℕ
  deriving DecidableEq, Repr

/-- Canvas pixels that were never drawn stay transparent black. -/
def transparentBlack : Pixel := { r := 0, g := 0, b := 0, a := 0 }

/-- A decoded raster image: dimensions plus a pixel lookup.  Stands for
the `ImageBitmap` / `Image` decoded from the captured PNG data URL and
for the produced canvas contents. -/
structure Image where
  width : ℕ
  height : ℕ
  pixel : ℕ → ℕ → Pixel

/-- The `coords` payload as received by `handleCaptureSnip` /
`cropImage`, restricted to whole physical pixels. -/
structure PhysCoords where
  x : ℤ
  y : ℤ
  width : ℕ
  height : ℕ
  deriving DecidableEq, Repr

/-- `cropImageWithOffscreenCanvas` of the service-worker background
(and, identically for the crop itself, `cropImage` of `background.ts`):
allocates an `OffscreenCanvas(coords.width, coords.height)` and executes
`ctx.drawImage(bitmap, coords.x, coords.y, coords.width, coords.height,
0, 0, coords.width, coords.height)`.  Source and destination rectangles
have equal size, so each canvas pixel `(i, j)` receives source pixel
`(coords.x + i, coords.y + j)` when that lies inside the source bitmap
(drawImage clips the source rectangle to the bitmap) and otherwise keeps
the canvas's initial transparent black.  The received rectangle is used
as-is: no clamping is performed, no device-pixel-ratio factor is applied
here, and there is no error path for a rectangle outside the bitmap. -/
def cropImageWithOffscreenCanvas (snap : Image) (coords : PhysCoords) : Image :=
  { width := coords.width
    height := coords.height
    pixel := fun i j =>
      let sx : ℤ := coords.x + i
      let sy : ℤ := coords.y + j
      if 0 ≤ sx ∧ sx < (snap.width : ℤ) ∧ 0 ≤ sy ∧ sy < (snap.height : ℤ) then
        snap.pixel sx.toNat sy.toNat
      else transparentBlack }

/-- `cropImage` of `background.ts` draws with the same source and
destination rectangles on the same canvas size; its crop semantics are
the same function. -/
def cropImage : Image → PhysCoords → Image := cropImageWithOffscreenCanvas

/-- The kind of failure the specification's clamping policy demands for
a degenerate intersection. -/
inductive CropError where
  | invalidRegion
  deriving DecidableEq, Repr

/-- Modelled from the spec (the clamping policy of §4.3 step 3 and the
`InvalidRegion` failure of §7, which no function of the repository
implements): intersect the requested rectangle with
`[0, snapshotWidth) × [0, snapshotHeight)` and fail with `InvalidRegion`
when the intersection is empty or degenerate (width or height ≤ 0);
otherwise crop to the intersection.  Stated only to be compared with
`cropImageWithOffscreenCanvas`, the function the code actually runs. -/
def specClampCrop (snap : Image) (coords : PhysCoords) : Except CropError Image :=
  let x0 : ℤ := max coords.x 0
  let y0 : ℤ := max coords.y 0
  let x1 : ℤ := min (coords.x + coords.width) snap.width
  let y1 : ℤ := min (coords.y + coords.height) snap.height
  if x0 < x1 ∧ y0 < y1 then
    Except.ok
      { width := (x1 - x0).toNat
        height := (y1 - y0).toNat
        pixel := fun i j => snap.pixel (x0.toNat + i) (y0.toNat + j) }
  else Except.error CropError.invalidRegion

/-! ## Size-budgeted encoder (`utils/imageCompression.ts`) -/

/-- `Math.round x` of JavaScript: `⌊x + 1/2⌋`, ties rounding toward
positive infinity. -/
def jsRound (q : ℚ) : ℤ := ⌊q + 1 / 2⌋

/-- `Math.round((length * 0.75) / 1024)` for a natural-number string
length: the value is exactly `3 * len / 4096`, so the rounded result is
`⌊(3 * len + 2048) / 4096⌋`. -/
def estSizeKB (len : ℕ) : ℕ := (3 * len + 2048) / 4096

/-- The optional `CompressionOptions` argument of
`compressBase64Image`. -/
structure CompressionOptions where
  maxSizeMB : Option ℚ := none
  maxWidthOrHeight : Option ℕ := none
  quality : Option ℚ := none
  skipIfSmall : Option Bool := none
  deriving DecidableEq, Repr

/-- The resolved `settings` object. -/
structure CompressionSettings where
  maxSizeMB : ℚ
  maxWidthOrHeight : ℕ
  quality : ℚ
  skipIfSmall : Bool
  deriving DecidableEq, Repr

/-- The `??`-defaulting at the top of `compressBase64Image`:
`maxSizeMB ?? 0.5`, `maxWidthOrHeight ?? 1200`, `quality ?? 0.85`,
`skipIfSmall ?? true`. -/
def resolveSettings (options : CompressionOptions) : CompressionSettings :=
  { maxSizeMB := options.maxSizeMB.getD (1 / 2)
    maxWidthOrHeight := options.maxWidthOrHeight.getD 1200
    quality := options.quality.getD (17 / 20)
    skipIfSmall := options.skipIfSmall.getD true }

/-- The `CompressionResult` record returned by `compressBase64Image`. -/
structure CompressionResult where
  compressed : String
  originalSize : ℕ
  compressedSize : ℕ
  reductionPercent : ℤ
  deriving DecidableEq, Repr

/-- `compressBase64Image` of `utils/imageCompression.ts`.  The body of
the `try` block — `base64ToFile`, the external `browser-image-compression`
call and `blobToBase64` — is abstracted as `oracle`, which returns the
compressed base64 string or `none` when any of those steps throws; the
`catch` block is the `none` branch.  Everything else (the size
estimation, the skip-if-small short-circuit, the result records) is
embedded directly from the source. -/
def compressBase64Image (oracle : String → CompressionSettings → Option String)
    (base64Image : String) (options : CompressionOptions) : CompressionResult :=
  let settings := resolveSettings options
  let originalSize := estSizeKB base64Image.length
  if settings.skipIfSmall ∧ originalSize < 500 then
    { compressed := base64Image
      originalSize := originalSize
      compressedSize := originalSize
      reductionPercent := 0 }
  else
    match oracle base64Image settings with
    | some compressedBase64 =>
        let compressedSize := estSizeKB compressedBase64.length
        { compressed := compressedBase64
          originalSize := originalSize
          compressedSize := compressedSize
          reductionPercent :=
            jsRound ((((originalSize : ℚ) - (compressedSize : ℚ)) / (originalSize : ℚ)) * 100) }
    | none =>
        { compressed := base64Image
          originalSize := originalSize
          compressedSize := originalSize
          reductionPercent := 0 }

/-- The options `handleCaptureSnip` of the service-worker background
passes for region snips: `maxSizeMB: 0.3, maxWidthOrHeight: 1200,
quality: 0.85, skipIfSmall: true`. -/
def regionSnipOptions : CompressionOptions :=
  { maxSizeMB := some (3 / 10)
    maxWidthOrHeight := some 1200
    quality := some (17 / 20)
    skipIfSmall := some true }

/-! ## Concrete test fixtures -/

/-- The content-script state right after `startSnipMode` followed by a
`mousedown` at CSS position (10, 10). -/
def dragState10 : ContentState :=
  { isSnipping := true
    overlayRef := true
    overlayElems := 1
    boxRef := true
    boxElems := 1
    boxVisible := true
    boxLeft := 10
    boxTop := 10
    boxWidth := 0
    boxHeight := 0
    startX := 10
    startY := 10
    keydownListener := true }

/-- A concrete 1600 × 1200 snapshot with position-dependent pixels. -/
def snap1600 : Image :=
  { width := 1600
    height := 1200
    pixel := fun i j => { r := i % 256, g := j % 256, b := 0, a := 255 } }

/-- The spec's example of a rectangle entirely outside a 1600 × 1200
snapshot. -/
def outsideCoords : PhysCoords := { x := 5000, y := 5000, width := 100, height := 100 }

/-- The spec's example of a rectangle fully inside a 1600 × 1200
snapshot. -/
def insideCoords : PhysCoords := { x := 100, y := 100, width := 300, height := 200 }

/-- A 545451-character base64 payload: its estimated size is 400 KB,
strictly between the 300 KB region budget and the 500 KB skip
threshold. -/
def bigInput : String := String.mk (List.replicate 545451 'a')

/-! ## Helper lemmas -/

theorem startSnipMode_idem (s : ContentState) :
    startSnipMode (startSnipMode s) = startSnipMode s := by
  by_cases h : s.isSnipping <;> simp [startSnipMode, h]

theorem jsRound_zero : jsRound 0 = 0 := by
  unfold jsRound
  norm_num

theorem bigInput_length : bigInput.length = 545451 := by
  unfold bigInput
  rw [String.length_mk, List.length_replicate]

/-! ## Claim C1 -/

/-- C1, counterexample: the claim that `SNIP_COMPLETE` carries the raw
CSS-pixel rectangle is false.  With devicePixelRatio 2, dragging from
CSS (10, 10) to CSS (30, 30) emits coordinates (20, 20, 40, 40) — the
content script has already multiplied by the ratio — and not the CSS
rectangle (10, 10, 20, 20). -/
theorem c1_snip_coords_not_css :
    (contentRun 2 initialContentState
      [ContentEvent.startSnip, ContentEvent.mouseDown 10 10, ContentEvent.mouseUp 30 30]).2 =
      [SnipMessage.snipComplete { x := 20, y := 20, width := 40, height := 40 }] ∧
    ({ x := 20, y := 20, width := 40, height := 40 } : SnipCoords) ≠
      { x := 10, y := 10, width := 20, height := 20 } := by
  constructor
  · norm_num [contentRun, contentStep, handleMouseDown, handleMouseUp, startSnipMode,
      cancelSnipMode, initialContentState]
  · intro h
    have := congrArg SnipCoords.x h
    norm_num at this

/-- C1, amended: for every completed drag (a mouse-up over the live
overlay whose rectangle reaches the 10-px minimum in both dimensions),
the `SNIP_COMPLETE` coordinates equal the CSS-pixel rectangle multiplied
component-wise by the devicePixelRatio in effect at mouse-up, i.e. at
selection time; the crop stage (`cropImageWithOffscreenCanvas`, which
takes no ratio input at all) applies no further scaling. -/
theorem c1_dpr_applied_at_selection (dpr x y : ℚ) (s : ContentState)
    (hov : s.overlayRef = true) (hbox : s.boxRef = true)
    (hw : 10 ≤ |x - s.startX|) (hh : 10 ≤ |y - s.startY|) :
    contentStep dpr s (ContentEvent.mouseUp x y) =
      (cancelSnipMode s,
        [SnipMessage.snipComplete
          { x := min x s.startX * dpr, y := min y s.startY * dpr,
            width := |x - s.startX| * dpr, height := |y - s.startY| * dpr }]) := by
  have h1 : ¬(|x - s.startX| < 10) := not_lt.mpr hw
  have h2 : ¬(|y - s.startY| < 10) := not_lt.mpr hh
  simp [contentStep, handleMouseUp, hov, hbox, h1, h2]

/-- Witness for `c1_dpr_applied_at_selection` at devicePixelRatio 2,
drag start (10, 10), mouse-up (30, 30). -/
theorem c1_dpr_applied_at_selection_witness :
    dragState10.overlayRef = true ∧ dragState10.boxRef = true ∧
    (10 : ℚ) ≤ |30 - dragState10.startX| ∧ (10 : ℚ) ≤ |30 - dragState10.startY| ∧
    contentStep 2 dragState10 (ContentEvent.mouseUp 30 30) =
      (cancelSnipMode dragState10,
        [SnipMessage.snipComplete { x := 20, y := 20, width := 40, height := 40 }]) := by
  refine ⟨rfl, rfl, by norm_num [dragState10], by norm_num [dragState10], ?_⟩
  have h := c1_dpr_applied_at_selection 2 30 30 dragState10 rfl rfl
    (by norm_num [dragState10]) (by norm_num [dragState10])
  rw [h]
  norm_num [dragState10]

/-! ## Claim C2 -/

/-- C2, counterexample: a rectangle entirely outside the snapshot
({x:5000, y:5000, width:100, height:100} against 1600 × 1200) is NOT
rejected.  The spec's clamping policy (`specClampCrop`, modelled from the
spec) demands `InvalidRegion` there, but the code's crop silently
produces a 100 × 100 image whose pixels are all transparent black,
different from every snapshot pixel. -/
theorem c2_outside_rect_not_rejected :
    specClampCrop snap1600 outsideCoords = Except.error CropError.invalidRegion ∧
    (cropImageWithOffscreenCanvas snap1600 outsideCoords).width = 100 ∧
    (cropImageWithOffscreenCanvas snap1600 outsideCoords).height = 100 ∧
    (cropImageWithOffscreenCanvas snap1600 outsideCoords).pixel 0 0 = transparentBlack ∧
    (cropImageWithOffscreenCanvas snap1600 outsideCoords).pixel 0 0 ≠ snap1600.pixel 0 0 := by
  refine ⟨?_, rfl, rfl, ?_, ?_⟩
  · norm_num [specClampCrop, snap1600, outsideCoords]
  · norm_num [cropImageWithOffscreenCanvas, snap1600, outsideCoords]
  · norm_num [cropImageWithOffscreenCanvas, snap1600, outsideCoords, transparentBlack]

/-- C2, amended: the crop stage performs no clamping and has no
`InvalidRegion` failure path.  The canvas always has the requested
dimensions, and every output pixel whose source position falls outside
the snapshot (in particular every pixel, for a rectangle entirely
outside) is silently left transparent black. -/
theorem c2_no_clamp_transparent_fill (snap : Image) (c : PhysCoords) (i j : ℕ)
    (hout : c.x + i < 0 ∨ (snap.width : ℤ) ≤ c.x + i ∨
      c.y + j < 0 ∨ (snap.height : ℤ) ≤ c.y + j) :
    (cropImageWithOffscreenCanvas snap c).width = c.width ∧
    (cropImageWithOffscreenCanvas snap c).height = c.height ∧
    (cropImageWithOffscreenCanvas snap c).pixel i j = transparentBlack := by
  refine ⟨rfl, rfl, ?_⟩
  simp only [cropImageWithOffscreenCanvas]
  rw [if_neg (by omega)]

/-- Witness for `c2_no_clamp_transparent_fill` at the spec's concrete
out-of-bounds example. -/
theorem c2_no_clamp_transparent_fill_witness :
    (outsideCoords.x + ((0 : ℕ) : ℤ) < 0 ∨
      (snap1600.width : ℤ) ≤ outsideCoords.x + ((0 : ℕ) : ℤ) ∨
      outsideCoords.y + ((0 : ℕ) : ℤ) < 0 ∨
      (snap1600.height : ℤ) ≤ outsideCoords.y + ((0 : ℕ) : ℤ)) ∧
    (cropImageWithOffscreenCanvas snap1600 outsideCoords).width = 100 ∧
    (cropImageWithOffscreenCanvas snap1600 outsideCoords).height = 100 ∧
    (cropImageWithOffscreenCanvas snap1600 outsideCoords).pixel 0 0 = transparentBlack := by
  have hout : outsideCoords.x + ((0 : ℕ) : ℤ) < 0 ∨
      (snap1600.width : ℤ) ≤ outsideCoords.x + ((0 : ℕ) : ℤ) ∨
      outsideCoords.y + ((0 : ℕ) : ℤ) < 0 ∨
      (snap1600.height : ℤ) ≤ outsideCoords.y + ((0 : ℕ) : ℤ) :=
    Or.inr (Or.inl (by norm_num [snap1600, outsideCoords]))
  have h := c2_no_clamp_transparent_fill snap1600 outsideCoords 0 0 hout
  refine ⟨hout, ?_, ?_, h.2.2⟩
  · rw [h.1]; rfl
  · rw [h.2.1]; rfl

/-! ## Claim C3 -/

/-- C3: `compressBase64Image` never raises past its own boundary — it is
total on every input string — and whenever the internal
decode/resize/encode pipeline fails (the oracle returns `none`, covering
any thrown error, malformed image data included), the returned record is
the original input unchanged with `compressedSize = originalSize` and
`reductionPercent = 0`. -/
theorem c3_compression_fallback (oracle : String → CompressionSettings → Option String)
    (base64Image : String) (options : CompressionOptions)
    (hfail : oracle base64Image (resolveSettings options) = none) :
    compressBase64Image oracle base64Image options =
      { compressed := base64Image
        originalSize := estSizeKB base64Image.length
        compressedSize := estSizeKB base64Image.length
        reductionPercent := 0 } := by
  unfold compressBase64Image
  by_cases h : (resolveSettings options).skipIfSmall = true ∧ estSizeKB base64Image.length < 500
  · simp [h]
  · simp [h, hfail]

/-- Witness for `c3_compression_fallback` on a deliberately non-image
input with an always-failing pipeline. -/
theorem c3_compression_fallback_witness :
    (fun (_ : String) (_ : CompressionSettings) => (none : Option String)) "notanimage"
        (resolveSettings {}) = none ∧
    compressBase64Image (fun _ _ => none) "notanimage" {} =
      { compressed := "notanimage"
        originalSize := estSizeKB "notanimage".length
        compressedSize := estSizeKB "notanimage".length
        reductionPercent := 0 } :=
  ⟨rfl, c3_compression_fallback (fun _ _ => none) "notanimage" {} rfl⟩

/-! ## Claim C4 -/

/-- C4: for every drag whose mouse-up rectangle has width < 10 or
height < 10 (in CSS pixels, measured from the module-level drag start),
no message is emitted and the overlay ends in exactly the state
`cancelSnipMode` produces — the selection is treated as a
cancellation. -/
theorem c4_small_selection_cancelled (dpr x y : ℚ) (s : ContentState)
    (hov : s.overlayRef = true) (hbox : s.boxRef = true)
    (hsmall : |x - s.startX| < 10 ∨ |y - s.startY| < 10) :
    contentStep dpr s (ContentEvent.mouseUp x y) = (cancelSnipMode s, []) := by
  simp only [contentStep, hov, if_true, handleMouseUp, hbox]
  simp only [Bool.true_eq_false, if_false]
  rw [if_pos hsmall]

/-- Witness for `c4_small_selection_cancelled`: a 5 × 2 pixel drag is
discarded. -/
theorem c4_small_selection_cancelled_witness :
    dragState10.overlayRef = true ∧ dragState10.boxRef = true ∧
    (|15 - dragState10.startX| < 10 ∨ |12 - dragState10.startY| < 10) ∧
    contentStep 1 dragState10 (ContentEvent.mouseUp 15 12) =
      (cancelSnipMode dragState10, []) := by
  refine ⟨rfl, rfl, Or.inl (by norm_num [dragState10]), ?_⟩
  exact c4_small_selection_cancelled 1 15 12 dragState10 rfl rfl
    (Or.inl (by norm_num [dragState10]))

/-! ## Claim C5 -/

/-- C5: for every crop whose physical-pixel rectangle lies fully inside
the snapshot, the produced image's dimensions equal the requested width
and height exactly, and each of its pixels is the snapshot pixel at the
requested offset — a direct blit with no scaling. -/
theorem c5_crop_exact_blit (snap : Image) (c : PhysCoords) (i j : ℕ)
    (hx : 0 ≤ c.x) (hy : 0 ≤ c.y)
    (hxw : c.x + c.width ≤ (snap.width : ℤ)) (hyh : c.y + c.height ≤ (snap.height : ℤ))
    (hi : i < c.width) (hj : j < c.height) :
    (cropImageWithOffscreenCanvas snap c).width = c.width ∧
    (cropImageWithOffscreenCanvas snap c).height = c.height ∧
    (cropImageWithOffscreenCanvas snap c).pixel i j =
      snap.pixel (c.x.toNat + i) (c.y.toNat + j) := by
  refine ⟨rfl, rfl, ?_⟩
  simp only [cropImageWithOffscreenCanvas]
  rw [if_pos (by omega)]
  congr 1 <;> omega

/-- Witness for `c5_crop_exact_blit` at the spec's example: snapshot
1600 × 1200, rectangle {x:100, y:100, width:300, height:200}, sampled at
output pixel (5, 7). -/
theorem c5_crop_exact_blit_witness :
    (0 ≤ insideCoords.x ∧ 0 ≤ insideCoords.y ∧
      insideCoords.x + insideCoords.width ≤ (snap1600.width : ℤ) ∧
      insideCoords.y + insideCoords.height ≤ (snap1600.height : ℤ) ∧
      5 < insideCoords.width ∧ 7 < insideCoords.height) ∧
    (cropImageWithOffscreenCanvas snap1600 insideCoords).width = 300 ∧
    (cropImageWithOffscreenCanvas snap1600 insideCoords).height = 200 ∧
    (cropImageWithOffscreenCanvas snap1600 insideCoords).pixel 5 7 =
      snap1600.pixel (insideCoords.x.toNat + 5) (insideCoords.y.toNat + 7) := by
  refine ⟨by norm_num [insideCoords, snap1600], ?_⟩
  have h := c5_crop_exact_blit snap1600 insideCoords 5 7 (by norm_num [insideCoords])
    (by norm_num [insideCoords]) (by norm_num [insideCoords, snap1600])
    (by norm_num [insideCoords, snap1600]) (by norm_num [insideCoords])
    (by norm_num [insideCoords])
  simpa [insideCoords] using h

/-! ## Claim C6 -/

/-- C6: for every input whose estimated original size
(`round(length * 0.75 / 1024)` KB) is below 500 KB, running the encoder
with `skipIfSmall` resolved to true returns the input string unchanged —
no re-encoding at all, whatever the oracle would do — with
`compressedSize = originalSize` and `reductionPercent = 0`. -/
theorem c6_skip_small_returns_input (oracle : String → CompressionSettings → Option String)
    (base64Image : String) (options : CompressionOptions)
    (hskip : (resolveSettings options).skipIfSmall = true)
    (hsmall : estSizeKB base64Image.length < 500) :
    compressBase64Image oracle base64Image options =
      { compressed := base64Image
        originalSize := estSizeKB base64Image.length
        compressedSize := estSizeKB base64Image.length
        reductionPercent := 0 } := by
  unfold compressBase64Image
  simp [hskip, hsmall]

/-- Witness for `c6_skip_small_returns_input` on a 4-character input with
an oracle that would succeed — the oracle's output is ignored. -/
theorem c6_skip_small_returns_input_witness :
    (resolveSettings {}).skipIfSmall = true ∧ estSizeKB "AAAA".length < 500 ∧
    compressBase64Image (fun _ _ => some "zz") "AAAA" {} =
      { compressed := "AAAA"
        originalSize := estSizeKB "AAAA".length
        compressedSize := estSizeKB "AAAA".length
        reductionPercent := 0 } :=
  ⟨rfl, by have h4 : "AAAA".length = 4 := rfl
           rw [h4]; norm_num [estSizeKB],
   c6_skip_small_returns_input (fun _ _ => some "zz") "AAAA" {} rfl
    (by have h4 : "AAAA".length = 4 := rfl
        rw [h4]; norm_num [estSizeKB])⟩

/-! ## Claim C7 -/

/-- C7: in every result the encoder returns, `reductionPercent` is
consistent with the two size fields: `originalSize` is the 0.75/1024
estimate of the input's length, `compressedSize` is the same estimate of
the returned string's length, `reductionPercent` always equals
`round((originalSize - compressedSize) / originalSize * 100)`, and it is
0 whenever compression is skipped (skip-if-small short-circuit) or fails
(oracle returns `none`). -/
theorem c7_reduction_percent_consistent
    (oracle : String → CompressionSettings → Option String)
    (base64Image : String) (options : CompressionOptions) :
    (compressBase64Image oracle base64Image options).originalSize =
      estSizeKB base64Image.length ∧
    (compressBase64Image oracle base64Image options).compressedSize =
      estSizeKB (compressBase64Image oracle base64Image options).compressed.length ∧
    (compressBase64Image oracle base64Image options).reductionPercent =
      jsRound
        ((((compressBase64Image oracle base64Image options).originalSize : ℚ) -
            ((compressBase64Image oracle base64Image options).compressedSize : ℚ)) /
          ((compressBase64Image oracle base64Image options).originalSize : ℚ) * 100) ∧
    (((resolveSettings options).skipIfSmall = true ∧ estSizeKB base64Image.length < 500) ∨
        oracle base64Image (resolveSettings options) = none →
      (compressBase64Image oracle base64Image options).reductionPercent = 0) := by
  unfold compressBase64Image
  by_cases h : (resolveSettings options).skipIfSmall = true ∧ estSizeKB base64Image.length < 500
  · simp [h]
    exact jsRound_zero.symm
  · cases hor : oracle base64Image (resolveSettings options) with
    | none =>
        simp [h, hor]
        exact jsRound_zero.symm
    | some out =>
        simp [h, hor]

/-- Witness for `c7_reduction_percent_consistent` on a small input with a
failing oracle. -/
theorem c7_reduction_percent_consistent_witness :
    (compressBase64Image (fun _ _ => none) "AAAA" {}).originalSize =
      estSizeKB "AAAA".length ∧
    (compressBase64Image (fun _ _ => none) "AAAA" {}).compressedSize =
      estSizeKB (compressBase64Image (fun _ _ => none) "AAAA" {}).compressed.length ∧
    (compressBase64Image (fun _ _ => none) "AAAA" {}).reductionPercent =
      jsRound
        ((((compressBase64Image (fun _ _ => none) "AAAA" {}).originalSize : ℚ) -
            ((compressBase64Image (fun _ _ => none) "AAAA" {}).compressedSize : ℚ)) /
          ((compressBase64Image (fun _ _ => none) "AAAA" {}).originalSize : ℚ) * 100) ∧
    (((resolveSettings {}).skipIfSmall = true ∧ estSizeKB "AAAA".length < 500) ∨
        (fun (_ : String) (_ : CompressionSettings) => (none : Option String)) "AAAA"
          (resolveSettings {}) = none →
      (compressBase64Image (fun _ _ => none) "AAAA" {}).reductionPercent = 0) :=
  c7_reduction_percent_consistent (fun _ _ => none) "AAAA" {}

/-! ## Claim C8 -/

/-- C8: starting the selection overlay is idempotent.  Processing two
consecutive `START_SNIP` messages, from any state and with no
intervening completion or cancellation, yields exactly the same state
and messages as processing one; from the initial state, after two
`START_SNIP`s exactly one overlay element and one selection-box element
exist in the document and nothing has been emitted. -/
theorem c8_start_snip_idempotent :
    (∀ (dpr : ℚ) (s : ContentState),
      contentRun dpr s [ContentEvent.startSnip, ContentEvent.startSnip] =
        contentRun dpr s [ContentEvent.startSnip]) ∧
    (contentRun 1 initialContentState
      [ContentEvent.startSnip, ContentEvent.startSnip]).1.overlayElems = 1 ∧
    (contentRun 1 initialContentState
      [ContentEvent.startSnip, ContentEvent.startSnip]).1.boxElems = 1 ∧
    (contentRun 1 initialContentState
      [ContentEvent.startSnip, ContentEvent.startSnip]).2 = [] := by
  refine ⟨?_, ?_, ?_, ?_⟩
  · intro dpr s
    simp [contentRun, contentStep, startSnipMode_idem]
  · norm_num [contentRun, contentStep, startSnipMode, initialContentState]
  · norm_num [contentRun, contentStep, startSnipMode, initialContentState]
  · norm_num [contentRun, contentStep, startSnipMode, initialContentState]

/-! ## Claim C9 -/

/-- C9: the skip-if-small decision compares the estimated size against
the hardcoded 500 KB constant and ignores the configured `maxSizeMB`
budget.  With the region-snip options (`maxSizeMB = 0.3`), any input
whose estimate lies strictly between 300 KB and 500 KB is returned
uncompressed with `reductionPercent = 0`, its `compressedSize` exceeds
300 KB, and replacing `maxSizeMB` by any other value (with any oracle)
changes nothing. -/
theorem c9_skip_threshold_ignores_budget
    (oracle : String → CompressionSettings → Option String) (base64Image : String)
    (h1 : 300 < estSizeKB base64Image.length) (h2 : estSizeKB base64Image.length < 500) :
    compressBase64Image oracle base64Image regionSnipOptions =
      { compressed := base64Image
        originalSize := estSizeKB base64Image.length
        compressedSize := estSizeKB base64Image.length
        reductionPercent := 0 } ∧
    300 < (compressBase64Image oracle base64Image regionSnipOptions).compressedSize ∧
    (∀ (m : ℚ) (oracle2 : String → CompressionSettings → Option String),
      compressBase64Image oracle2 base64Image
          { regionSnipOptions with maxSizeMB := some m } =
        compressBase64Image oracle base64Image regionSnipOptions) := by
  have hmain : ∀ (or2 : String → CompressionSettings → Option String)
      (opt : CompressionOptions), opt.skipIfSmall = some true →
      compressBase64Image or2 base64Image opt =
        { compressed := base64Image
          originalSize := estSizeKB base64Image.length
          compressedSize := estSizeKB base64Image.length
          reductionPercent := 0 } := by
    intro or2 opt hopt
    unfold compressBase64Image
    simp [resolveSettings, hopt, h2]
  refine ⟨hmain oracle regionSnipOptions rfl, ?_, ?_⟩
  · rw [hmain oracle regionSnipOptions rfl]
    exact h1
  · intro m oracle2
    rw [hmain oracle regionSnipOptions rfl, hmain oracle2 _ rfl]

/-- Witness for `c9_skip_threshold_ignores_budget` on a 545451-character
input (estimated 400 KB): it is returned uncompressed even though 400 KB
exceeds the 0.3 MB (307.2 KB) region budget. -/
theorem c9_skip_threshold_ignores_budget_witness :
    300 < estSizeKB bigInput.length ∧ estSizeKB bigInput.length < 500 ∧
    compressBase64Image (fun _ _ => some "") bigInput regionSnipOptions =
      { compressed := bigInput
        originalSize := estSizeKB bigInput.length
        compressedSize := estSizeKB bigInput.length
        reductionPercent := 0 } ∧
    (3 / 10 : ℚ) * 1024 <
      ((compressBase64Image (fun _ _ => some "") bigInput
          regionSnipOptions).compressedSize : ℚ) := by
  have hlen : estSizeKB bigInput.length = 400 := by
    rw [bigInput_length]
    norm_num [estSizeKB]
  have h := c9_skip_threshold_ignores_budget (fun _ _ => some "") bigInput
    (by rw [hlen]; norm_num) (by rw [hlen]; norm_num)
  refine ⟨by rw [hlen]; norm_num, by rw [hlen]; norm_num, h.1, ?_⟩
  rw [h.1]
  rw [hlen]
  norm_num

/-! ## Claim C10 -/

/-- C10: `handleMouseUp` only requires the selection-box element to
exist, not that a mouse-down occurred in the current snip session.
`startX`/`startY` are module-level and start at 0, so from a fresh
session a mouse-up at (50, 50) with no preceding mouse-down measures a
50 × 50 rectangle against the initial (0, 0) start and emits a
`SNIP_COMPLETE` — the ARMED → DRAGGING → COMPLETE ordering is not
enforced. -/
theorem c10_mouseup_without_mousedown_emits :
    initialContentState.startX = 0 ∧ initialContentState.startY = 0 ∧
    (contentRun 1 initialContentState
      [ContentEvent.startSnip, ContentEvent.mouseUp 50 50]).2 =
      [SnipMessage.snipComplete { x := 0, y := 0, width := 50, height := 50 }] := by
  refine ⟨rfl, rfl, ?_⟩
  norm_num [contentRun, contentStep, handleMouseUp, startSnipMode, cancelSnipMode,
    initialContentState]
